import Mathlib

/-!
Verification of the bird-optimizer recommendation engine.

This file gives a shallow embedding of the core logic of
`src/app/page.tsx` (the authoritative source; `src/unnamed/part_000` is an
earlier draft of the same component with identical engine logic):

* the geospatial distance module (`calculateDistance`, haversine with
  Earth radius 6371 km and the atan2 form), lines 177-189;
* the recommendation engine (`calculateRecommendations`), lines 130-174;
* the species-aggregation step of `fetchHotspotSpecies`, lines 80-98.

Modelling conventions:

* JavaScript numbers are modelled as real numbers (`ℝ`) for coordinates
  and scores, and as exact rationals (`ℚ`) for the purely rational
  per-species arithmetic.  The source formats `expectedNewSpecies`,
  `distance` and `score` with `toFixed` into decimal strings for the
  record it returns; we keep the exact values in the `Recommendation`
  structure and apply the rounding where it is observable, namely in the
  ranking comparator (`parseFloat(b.score) - parseFloat(a.score)` over
  `score.toFixed(2)` equals a comparison of `round (score * 100) / 100`)
  and in the `topNewSpecies` percentage (`toFixed(0)` equals `round`).
* A JavaScript object with non-numeric string keys enumerates its
  entries in insertion order, so a species-frequency object is an
  association list.
* `Array.prototype.sort` with a numeric comparator is (per ECMAScript)
  a stable sort consistent with the comparator, which determines its
  output uniquely; `sortDescBy` is that stable descending-by-key sort.
* The single place where the real-number model is not faithful to IEEE
  floating point is division by zero: Lean defines `q / 0 = 0` while
  JavaScript produces `Infinity` or `NaN`.  The unguarded division
  `data.count / hotspotData.totalChecklists` (line 142) is therefore
  additionally modelled exactly, with IEEE special values, by `JsVal`,
  `jsDiv`, `jsAdd` and `jsExpectedNewSpecies` below, and the claims
  about `totalChecklists = 0` are settled against that exact model.
-/

namespace BirdOptimizer

/-- A hotspot as consumed by the engine: `locId`, `locName`, `lat`, `lng`
(decimal degrees), as fetched from the external source. -/
structure Hotspot where
  locId : String
  locName : String
  lat : ℝ
  lng : ℝ

/-- Per-species aggregate record stored in a species-frequency table:
`commonName`, `scientificName`, occurrence `count`, `lastSeen` date. -/
structure SpeciesData where
  commonName : String
  scientificName : String
  count : ℕ
  lastSeen : String
deriving DecidableEq

/-- A species-frequency table: a JavaScript object keyed by species code.
String-keyed objects enumerate entries in insertion order, so the table
is an association list from species code to `SpeciesData`. -/
abbrev SpeciesFrequency := List (String × SpeciesData)

/-- The per-location observation summary built by `fetchHotspotSpecies`:
`hotspotId`, the species-frequency table and `totalChecklists`. -/
structure HotspotData where
  hotspotId : String
  species : SpeciesFrequency
  totalChecklists : ℕ
deriving DecidableEq

/-- One raw observation record from the external source: species code,
common name, scientific name and observation date. -/
structure Observation where
  speciesCode : String
  comName : String
  sciName : String
  obsDt : String

/-- An entry of `topNewSpecies`: the species' common name and its
occurrence percentage.  The source stores
`((data.count / total) * 100).toFixed(0)`, i.e. the percentage rounded
to the nearest integer (ties away from zero, which for the nonnegative
values arising here agrees with `round`). -/
structure TopSpecies where
  name : String
  probability : ℤ
deriving DecidableEq

/-- A recommendation as assembled at lines 155-168 of the source.  The
fields `expectedNewSpecies`, `distance` and `score` hold the exact
computed values (the source additionally formats them with `toFixed`
into display strings; see the module docstring). -/
structure Recommendation where
  hotspot : Hotspot
  newSpeciesCount : ℕ
  expectedNewSpecies : ℚ
  distance : ℝ
  score : ℝ
  topNewSpecies : List TopSpecies

/-! ### Geospatial distance module (source lines 177-189) -/

/-- Degrees to radians, `deg * (Math.PI / 180)` (source line 189). -/
noncomputable def toRad (deg : ℝ) : ℝ := deg * (Real.pi / 180)

/-- JavaScript `Math.atan2 y x` on real (finite) arguments: the angle of
the point `(x, y)`, in `(-π, π]`. -/
noncomputable def jsAtan2 (y x : ℝ) : ℝ :=
  if 0 < x then Real.arctan (y / x)
  else if x < 0 then
    (if 0 ≤ y then Real.arctan (y / x) + Real.pi else Real.arctan (y / x) - Real.pi)
  else
    (if 0 < y then Real.pi / 2 else if y < 0 then -(Real.pi / 2) else 0)

/-- The haversine quantity `a` of source lines 181-184:
`sin(dLat/2)² + cos(toRad lat1) * cos(toRad lat2) * sin(dLon/2)²`. -/
noncomputable def haversineA (lat1 lon1 lat2 lon2 : ℝ) : ℝ :=
  Real.sin (toRad (lat2 - lat1) / 2) * Real.sin (toRad (lat2 - lat1) / 2) +
    Real.cos (toRad lat1) * Real.cos (toRad lat2) *
      Real.sin (toRad (lon2 - lon1) / 2) * Real.sin (toRad (lon2 - lon1) / 2)

/-- Haversine great-circle distance in km (source lines 177-187):
Earth radius 6371 km and `c = 2 * atan2(√a, √(1-a))`. -/
noncomputable def calculateDistance (lat1 lon1 lat2 lon2 : ℝ) : ℝ :=
  6371 *
    (2 * jsAtan2 (Real.sqrt (haversineA lat1 lon1 lat2 lon2))
      (Real.sqrt (1 - haversineA lat1 lon1 lat2 lon2)))

/-- Center of the search region in the authoritative source
(`CHICAGO_WEST`, lines 21-26): latitude 41.94. -/
noncomputable def CHICAGO_WEST_lat : ℝ := 41.94

/-- Center of the search region in the authoritative source
(`CHICAGO_WEST`, lines 21-26): longitude -87.67. -/
noncomputable def CHICAGO_WEST_lng : ℝ := -87.67

/-! ### Stable descending sort

`Array.prototype.sort` with comparators `(a, b) => k(b) - k(a)` (source
lines 162 and 171) is a stable sort, descending in the key `k`; the
ECMAScript stability and consistency requirements determine its output
uniquely, and `sortDescBy` computes exactly that list. -/

/-- Insert `x` into a list sorted descending by `key`, before the first
element whose key is `≤ key x` (so that elements inserted earlier stay
in front of later equal-key elements: stability). -/
def insertDescBy {α β : Type} [LinearOrder β] (key : α → β) (x : α) : List α → List α
  | [] => [x]
  | y :: ys => if key y ≤ key x then x :: y :: ys else y :: insertDescBy key x ys

/-- Stable insertion sort, descending by `key`. -/
def sortDescBy {α β : Type} [LinearOrder β] (key : α → β) : List α → List α
  | [] => []
  | x :: xs => insertDescBy key x (sortDescBy key xs)

/-! ### Species aggregation (source lines 80-98) -/

/-- Increment the `count` of the entry with the given species code
(the `speciesFrequency[obs.speciesCode].count++` of source line 91). -/
def incrementCount (code : String) : SpeciesFrequency → SpeciesFrequency
  | [] => []
  | e :: rest =>
    if e.1 = code then (e.1, { e.2 with count := e.2.count + 1 }) :: rest
    else e :: incrementCount code rest

/-- Process one observation (the body of the `forEach` at source lines
82-92): create a fresh entry with count 0 if the species code is not yet
present, then increment its count. -/
def recordObservation (freq : SpeciesFrequency) (obs : Observation) : SpeciesFrequency :=
  incrementCount obs.speciesCode
    (if (freq.lookup obs.speciesCode).isSome then freq
     else freq ++ [(obs.speciesCode, ⟨obs.comName, obs.sciName, 0, obs.obsDt⟩)])

/-- The species-frequency table built from a list of observations
(source lines 81-92). -/
def speciesFrequencyOf (observations : List Observation) : SpeciesFrequency :=
  observations.foldl recordObservation []

/-- The summary returned by `fetchHotspotSpecies` on a successful fetch
(source lines 94-98): the aggregated table plus
`totalChecklists = observations.length`. -/
def fetchHotspotSpecies (hotspotId : String) (observations : List Observation) : HotspotData :=
  { hotspotId := hotspotId
    species := speciesFrequencyOf observations
    totalChecklists := observations.length }

/-! ### Recommendation engine (source lines 130-174) -/

/-- The new-species entries of a location: species-frequency entries
whose code is not in the user's life list (source lines 136-138). -/
def newSpeciesOf (userLifeList : List String) (hotspotData : HotspotData) : SpeciesFrequency :=
  hotspotData.species.filter fun e => !userLifeList.contains e.1

/-- Per-species occurrence probability
`data.count / hotspotData.totalChecklists` (source line 142), in exact
rational arithmetic.  Note Lean's `q / 0 = 0` convention here; the IEEE
behaviour of this division at `totalChecklists = 0` is modelled exactly
by `jsDiv` below. -/
def probabilityOf (hotspotData : HotspotData) (e : String × SpeciesData) : ℚ :=
  (e.2.count : ℚ) / (hotspotData.totalChecklists : ℚ)

/-- The probability-weighted expected value: the `reduce` of source
lines 141-144, summing `probabilityOf` over the new species. -/
def expectedNewSpeciesOf (userLifeList : List String) (hotspotData : HotspotData) : ℚ :=
  (newSpeciesOf userLifeList hotspotData).foldl (fun sum e => sum + probabilityOf hotspotData e) 0

/-- The `topNewSpecies` field (source lines 161-167): stable-sort the
new species descending by `count`, take the first 5, and map each to its
common name and rounded occurrence percentage. -/
def topNewSpeciesOf (userLifeList : List String) (hotspotData : HotspotData) : List TopSpecies :=
  ((sortDescBy (fun e => e.2.count) (newSpeciesOf userLifeList hotspotData)).take 5).map
    fun e => { name := e.2.commonName, probability := round (probabilityOf hotspotData e * 100) }

/-- The recommendation record built for one hotspot that has a summary
(source lines 136-168).  `score` is
`distance > 0 ? expectedNewSpecies / Math.sqrt(distance) : expectedNewSpecies`
(line 153). -/
noncomputable def buildRecommendation (centerLat centerLng : ℝ) (userLifeList : List String)
    (hotspot : Hotspot) (hotspotData : HotspotData) : Recommendation where
  hotspot := hotspot
  newSpeciesCount := (newSpeciesOf userLifeList hotspotData).length
  expectedNewSpecies := expectedNewSpeciesOf userLifeList hotspotData
  distance := calculateDistance centerLat centerLng hotspot.lat hotspot.lng
  score :=
    if 0 < calculateDistance centerLat centerLng hotspot.lat hotspot.lng then
      (expectedNewSpeciesOf userLifeList hotspotData : ℝ) /
        Real.sqrt (calculateDistance centerLat centerLng hotspot.lat hotspot.lng)
    else (expectedNewSpeciesOf userLifeList hotspotData : ℝ)
  topNewSpecies := topNewSpeciesOf userLifeList hotspotData

/-- The ranking key of the final sort (source line 171):
`parseFloat(r.score)` where `r.score` is the string `score.toFixed(2)`,
i.e. the score rounded to two decimal places. -/
noncomputable def scoreKey (r : Recommendation) : ℝ := ((round (r.score * 100) : ℤ) : ℝ) / 100

/-- The recommendation engine (source lines 130-174): for each hotspot
keep it only if `speciesData` has a summary under its `locId` (lines
131-133 and the `filter` at line 169), build its recommendation, and
stable-sort the results descending by the rounded score (line 171). -/
noncomputable def calculateRecommendations (hotspots : List Hotspot)
    (speciesData : List (String × HotspotData)) (userLifeList : List String)
    (centerLat centerLng : ℝ) : List Recommendation :=
  sortDescBy scoreKey
    (hotspots.filterMap fun hotspot =>
      (speciesData.lookup hotspot.locId).map
        (buildRecommendation centerLat centerLng userLifeList hotspot))

/-! ### Exact IEEE model of the unguarded division (for the
zero-checklist claims) -/

/-- A JavaScript number under exact arithmetic: a finite rational, an
infinity, or `NaN`.  Rounding of finite values is not modelled (it is
irrelevant to the zero-denominator question); the special values are. -/
inductive JsVal where
  | finite : ℚ → JsVal
  | posInf : JsVal
  | negInf : JsVal
  | nan : JsVal
deriving DecidableEq

/-- IEEE division on `JsVal`: in particular `a / 0` is `NaN` when
`a = 0`, `Infinity` when `a > 0` and `-Infinity` when `a < 0`. -/
def jsDiv : JsVal → JsVal → JsVal
  | .finite a, .finite b =>
    if b = 0 then (if a = 0 then .nan else if 0 < a then .posInf else .negInf)
    else .finite (a / b)
  | .nan, _ => .nan
  | _, .nan => .nan
  | .posInf, .posInf => .nan
  | .posInf, .negInf => .nan
  | .negInf, .posInf => .nan
  | .negInf, .negInf => .nan
  | .posInf, .finite b => if 0 ≤ b then .posInf else .negInf
  | .negInf, .finite b => if 0 ≤ b then .negInf else .posInf
  | .finite _, .posInf => .finite 0
  | .finite _, .negInf => .finite 0

/-- IEEE addition on `JsVal`: `NaN` propagates, opposite infinities give
`NaN`, an infinity absorbs finite values. -/
def jsAdd : JsVal → JsVal → JsVal
  | .finite a, .finite b => .finite (a + b)
  | .nan, _ => .nan
  | _, .nan => .nan
  | .posInf, .negInf => .nan
  | .negInf, .posInf => .nan
  | .posInf, _ => .posInf
  | _, .posInf => .posInf
  | .negInf, _ => .negInf
  | _, .negInf => .negInf

/-- The `reduce` of source lines 141-144 under exact IEEE semantics:
`newSpecies.reduce((sum, e) => sum + e.count / totalChecklists, 0)`. -/
def jsExpectedNewSpecies (newSpecies : SpeciesFrequency) (totalChecklists : ℕ) : JsVal :=
  newSpecies.foldl
    (fun sum e => jsAdd sum (jsDiv (.finite (e.2.count : ℚ)) (.finite (totalChecklists : ℚ))))
    (.finite 0)

/-! ### Component state (for the frame claim)

The React component keeps the pipeline data in state containers; the
`calculateRecommendations` click handler (source lines 130-174) reads
`hotspots`, `speciesData` and `userLifeList` and calls only
`setRecommendations(recs)` and `setStage('recommendations')`. -/

/-- The state containers of the component that the scoring pass can
see: pipeline `stage`, fetched `hotspots`, the per-location summaries
`speciesData`, the user's life list, and the current
`recommendations`. -/
structure ComponentState where
  stage : String
  hotspots : List Hotspot
  speciesData : List (String × HotspotData)
  userLifeList : List String
  recommendations : List Recommendation

/-- The state transition performed by the `calculateRecommendations`
handler: compute the ranked list from the current inputs, store it with
`setRecommendations`, and advance the stage (source lines 172-173).  No
other state container is written. -/
noncomputable def calculateRecommendationsStep (s : ComponentState) : ComponentState :=
  { s with
    recommendations :=
      calculateRecommendations s.hotspots s.speciesData s.userLifeList
        CHICAGO_WEST_lat CHICAGO_WEST_lng
    stage := "recommendations" }

/-! ### Properties of the stable descending sort -/

theorem insertDescBy_perm {α β : Type} [LinearOrder β] (key : α → β) (x : α) :
    ∀ l : List α, (insertDescBy key x l).Perm (x :: l)
  | [] => List.Perm.refl _
  | y :: ys => by
    unfold insertDescBy
    split
    · exact List.Perm.refl _
    · exact ((insertDescBy_perm key x ys).cons y).trans (List.Perm.swap x y ys)

theorem sortDescBy_perm {α β : Type} [LinearOrder β] (key : α → β) :
    ∀ l : List α, (sortDescBy key l).Perm l
  | [] => List.Perm.refl _
  | x :: xs =>
    (insertDescBy_perm key x (sortDescBy key xs)).trans ((sortDescBy_perm key xs).cons x)

theorem insertDescBy_pairwise {α β : Type} [LinearOrder β] (key : α → β) (x : α) :
    ∀ l : List α, l.Pairwise (fun a b => key b ≤ key a) →
      (insertDescBy key x l).Pairwise (fun a b => key b ≤ key a)
  | [], _ => List.pairwise_singleton _ _
  | y :: ys, h => by
    rcases List.pairwise_cons.1 h with ⟨hy, hys⟩
    unfold insertDescBy
    split
    · rename_i hkey
      refine List.pairwise_cons.2 ⟨?_, h⟩
      intro z hz
      rcases List.mem_cons.1 hz with rfl | hz
      · exact hkey
      · exact (hy z hz).trans hkey
    · rename_i hkey
      refine List.pairwise_cons.2 ⟨?_, insertDescBy_pairwise key x ys hys⟩
      intro z hz
      rcases List.mem_cons.1 ((insertDescBy_perm key x ys).mem_iff.1 hz) with rfl | hz
      · exact (lt_of_not_le hkey).le
      · exact hy z hz

theorem sortDescBy_pairwise {α β : Type} [LinearOrder β] (key : α → β) :
    ∀ l : List α, (sortDescBy key l).Pairwise (fun a b => key b ≤ key a)
  | [] => List.Pairwise.nil
  | x :: xs => insertDescBy_pairwise key x _ (sortDescBy_pairwise key xs)

theorem insertDescBy_filter_of_key_eq {α β : Type} [LinearOrder β] (key : α → β) (x : α)
    (k : β) (hx : key x = k) :
    ∀ l : List α, (insertDescBy key x l).filter (fun z => decide (key z = k)) =
      x :: l.filter (fun z => decide (key z = k))
  | [] => by simp [insertDescBy, hx]
  | y :: ys => by
    unfold insertDescBy
    split
    · simp [hx]
    · rename_i hkey
      have hy : ¬ key y = k := fun hyk => hkey (le_of_eq (hyk.trans hx.symm))
      simp [List.filter_cons, hy, insertDescBy_filter_of_key_eq key x k hx ys]

theorem insertDescBy_filter_of_key_ne {α β : Type} [LinearOrder β] (key : α → β) (x : α)
    (k : β) (hx : ¬ key x = k) :
    ∀ l : List α, (insertDescBy key x l).filter (fun z => decide (key z = k)) =
      l.filter (fun z => decide (key z = k))
  | [] => by simp [insertDescBy, hx]
  | y :: ys => by
    unfold insertDescBy
    split
    · simp [hx]
    · simp only [List.filter_cons]
      rw [insertDescBy_filter_of_key_ne key x k hx ys]

/-- Stability of `sortDescBy`: the elements of any fixed key value
appear in the output in exactly their input order. -/
theorem sortDescBy_stable {α β : Type} [LinearOrder β] (key : α → β) (k : β) :
    ∀ l : List α, (sortDescBy key l).filter (fun z => decide (key z = k)) =
      l.filter (fun z => decide (key z = k))
  | [] => rfl
  | x :: xs => by
    unfold sortDescBy
    by_cases hx : key x = k
    · rw [insertDescBy_filter_of_key_eq key x k hx, sortDescBy_stable key k xs]
      simp [hx]
    · rw [insertDescBy_filter_of_key_ne key x k hx, sortDescBy_stable key k xs]
      simp [hx]

theorem sortDescBy_pair_of_le {α β : Type} [LinearOrder β] (key : α → β) (a b : α)
    (h : key b ≤ key a) : sortDescBy key [a, b] = [a, b] := by
  simp [sortDescBy, insertDescBy, h]

/-- Summing with `foldl` equals the sum of the mapped list. -/
theorem foldl_add_eq_sum {α : Type} (f : α → ℚ) (l : List α) (c : ℚ) :
    l.foldl (fun sum e => sum + f e) c = c + (l.map f).sum := by
  induction l generalizing c with
  | nil => simp
  | cons x xs ih => simp [ih, add_assoc]

/-! ### Basic properties of the distance module -/

theorem toRad_sub_swap (x y : ℝ) : toRad (x - y) / 2 = -(toRad (y - x) / 2) := by
  unfold toRad; ring

theorem sin_sq_toRad_swap (x y : ℝ) :
    Real.sin (toRad (x - y) / 2) * Real.sin (toRad (x - y) / 2) =
      Real.sin (toRad (y - x) / 2) * Real.sin (toRad (y - x) / 2) := by
  rw [toRad_sub_swap, Real.sin_neg]; ring

theorem haversineA_symm (lat1 lon1 lat2 lon2 : ℝ) :
    haversineA lat1 lon1 lat2 lon2 = haversineA lat2 lon2 lat1 lon1 := by
  unfold haversineA
  have h1 := sin_sq_toRad_swap lat2 lat1
  have h2 := sin_sq_toRad_swap lon2 lon1
  linear_combination h1 + Real.cos (toRad lat1) * Real.cos (toRad lat2) * h2

theorem haversineA_self (lat lon : ℝ) : haversineA lat lon lat lon = 0 := by
  unfold haversineA toRad
  simp

theorem calculateDistance_self (lat lon : ℝ) : calculateDistance lat lon lat lon = 0 := by
  unfold calculateDistance
  rw [haversineA_self]
  norm_num [jsAtan2, Real.sqrt_one, Real.arctan_zero]

theorem arctan_nonneg_of_nonneg {t : ℝ} (h : 0 ≤ t) : 0 ≤ Real.arctan t := by
  have := Real.arctan_strictMono.monotone h
  rwa [Real.arctan_zero] at this

theorem jsAtan2_nonneg {y x : ℝ} (hy : 0 ≤ y) : 0 ≤ jsAtan2 y x := by
  have hpi := Real.pi_pos
  unfold jsAtan2
  split_ifs with h1 h2 h3 h4 h5 <;>
    first
      | exact arctan_nonneg_of_nonneg (div_nonneg hy h1.le)
      | exact le_of_lt (by have hb := Real.neg_pi_div_two_lt_arctan (y / x); linarith)
      | linarith

theorem calculateDistance_nonneg (lat1 lon1 lat2 lon2 : ℝ) :
    0 ≤ calculateDistance lat1 lon1 lat2 lon2 := by
  unfold calculateDistance
  have h : 0 ≤ jsAtan2 (Real.sqrt (haversineA lat1 lon1 lat2 lon2))
      (Real.sqrt (1 - haversineA lat1 lon1 lat2 lon2)) :=
    jsAtan2_nonneg (Real.sqrt_nonneg (haversineA lat1 lon1 lat2 lon2))
  nlinarith

/-- C6: the distance function is symmetric in its two coordinate pairs,
and is zero on the diagonal: `distanceKm(a,b) = distanceKm(b,a)` for all
pairs, and `distanceKm(a,a) = 0` for every point. -/
theorem claim_distance_symmetric_and_zero_on_diagonal :
    (∀ lat1 lon1 lat2 lon2 : ℝ,
        calculateDistance lat1 lon1 lat2 lon2 = calculateDistance lat2 lon2 lat1 lon1) ∧
      ∀ lat lon : ℝ, calculateDistance lat lon lat lon = 0 := by
  constructor
  · intro lat1 lon1 lat2 lon2
    unfold calculateDistance
    rw [haversineA_symm]
  · exact calculateDistance_self

/-! ### Engine membership characterization -/

/-- A recommendation is in the engine output exactly when it is the
record built for some input hotspot whose id has a summary. -/
theorem mem_calculateRecommendations {hotspots : List Hotspot}
    {speciesData : List (String × HotspotData)} {userLifeList : List String}
    {centerLat centerLng : ℝ} {r : Recommendation} :
    r ∈ calculateRecommendations hotspots speciesData userLifeList centerLat centerLng ↔
      ∃ hotspot ∈ hotspots, ∃ hotspotData,
        speciesData.lookup hotspot.locId = some hotspotData ∧
          r = buildRecommendation centerLat centerLng userLifeList hotspot hotspotData := by
  unfold calculateRecommendations
  rw [(sortDescBy_perm scoreKey _).mem_iff, List.mem_filterMap]
  simp only [Option.map_eq_some']
  constructor
  · rintro ⟨h, hh, hd, hlook, rfl⟩
    exact ⟨h, hh, hd, hlook, rfl⟩
  · rintro ⟨h, hh, hd, hlook, rfl⟩
    exact ⟨h, hh, hd, hlook, rfl⟩

/-! ### Example inputs used by witnesses and concrete test points -/

/-- Example hotspot located exactly at the reference center point. -/
noncomputable def exHotspotA : Hotspot :=
  { locId := "L1", locName := "Loc One", lat := 41.94, lng := -87.67 }

/-- Example summary for `exHotspotA`: one species seen 3 times out of 10
checklists. -/
def exSummaryA : HotspotData :=
  { hotspotId := "L1"
    species := [("blujay", ⟨"Blue Jay", "Cyanocitta cristata", 3, "2024-01-01"⟩)]
    totalChecklists := 10 }

/-- The summary of the spec's new-species-partition fixture:
species frequency with norcad count 5 and blujay count 3,
`totalChecklists = 10`. -/
def exPartitionSummary : HotspotData :=
  { hotspotId := "hot1"
    species :=
      [("norcad", ⟨"Northern Cardinal", "Cardinalis cardinalis", 5, "2024-01-01"⟩),
        ("blujay", ⟨"Blue Jay", "Cyanocitta cristata", 3, "2024-01-01"⟩)]
    totalChecklists := 10 }

/-- A summary with 7 species of pairwise distinct counts, 20 checklists:
the top-species fixture. -/
def exSevenSummary : HotspotData :=
  { hotspotId := "hot7"
    species :=
      [("s1", ⟨"S1", "sp one", 7, "d"⟩), ("s2", ⟨"S2", "sp two", 3, "d"⟩),
        ("s3", ⟨"S3", "sp three", 9, "d"⟩), ("s4", ⟨"S4", "sp four", 1, "d"⟩),
        ("s5", ⟨"S5", "sp five", 5, "d"⟩), ("s6", ⟨"S6", "sp six", 11, "d"⟩),
        ("s7", ⟨"S7", "sp seven", 2, "d"⟩)]
    totalChecklists := 20 }

/-! ### C3: the score formula -/

/-- C3: for every recommendation in the engine output, the distance
field is the haversine distance from the center point to the hotspot's
coordinates, and the score equals `expectedNewSpecies` when that
distance is 0 and `expectedNewSpecies / sqrt(distance)` otherwise. -/
theorem claim_score_formula (hotspots : List Hotspot)
    (speciesData : List (String × HotspotData)) (userLifeList : List String)
    (centerLat centerLng : ℝ) (r : Recommendation)
    (hr : r ∈ calculateRecommendations hotspots speciesData userLifeList centerLat centerLng) :
    r.distance = calculateDistance centerLat centerLng r.hotspot.lat r.hotspot.lng ∧
      r.score = if r.distance = 0 then (r.expectedNewSpecies : ℝ)
        else (r.expectedNewSpecies : ℝ) / Real.sqrt r.distance := by
  obtain ⟨h, hmem, hd, hlook, rfl⟩ := mem_calculateRecommendations.1 hr
  refine ⟨rfl, ?_⟩
  show (if 0 < calculateDistance centerLat centerLng h.lat h.lng then
      (expectedNewSpeciesOf userLifeList hd : ℝ) /
        Real.sqrt (calculateDistance centerLat centerLng h.lat h.lng)
    else (expectedNewSpeciesOf userLifeList hd : ℝ)) = _
  rcases (calculateDistance_nonneg centerLat centerLng h.lat h.lng).eq_or_lt with h0 | h0
  · rw [if_neg (by rw [← h0]; exact lt_irrefl 0)]
    show _ = if calculateDistance centerLat centerLng h.lat h.lng = 0 then _ else _
    rw [if_pos h0.symm]
    rfl
  · rw [if_pos h0]
    show _ = if calculateDistance centerLat centerLng h.lat h.lng = 0 then _ else _
    rw [if_neg (ne_of_gt h0)]
    rfl

/-- Witness for C3 at a concrete input: one hotspot at the center with
one summarized species. -/
theorem claim_score_formula_witness :
    (buildRecommendation CHICAGO_WEST_lat CHICAGO_WEST_lng [] exHotspotA exSummaryA).distance =
        calculateDistance CHICAGO_WEST_lat CHICAGO_WEST_lng
          (buildRecommendation CHICAGO_WEST_lat CHICAGO_WEST_lng [] exHotspotA
            exSummaryA).hotspot.lat
          (buildRecommendation CHICAGO_WEST_lat CHICAGO_WEST_lng [] exHotspotA
            exSummaryA).hotspot.lng ∧
      (buildRecommendation CHICAGO_WEST_lat CHICAGO_WEST_lng [] exHotspotA exSummaryA).score =
        if (buildRecommendation CHICAGO_WEST_lat CHICAGO_WEST_lng [] exHotspotA
            exSummaryA).distance = 0 then
          ((buildRecommendation CHICAGO_WEST_lat CHICAGO_WEST_lng [] exHotspotA
            exSummaryA).expectedNewSpecies : ℝ)
        else
          ((buildRecommendation CHICAGO_WEST_lat CHICAGO_WEST_lng [] exHotspotA
              exSummaryA).expectedNewSpecies : ℝ) /
            Real.sqrt
              (buildRecommendation CHICAGO_WEST_lat CHICAGO_WEST_lng [] exHotspotA
                exSummaryA).distance :=
  claim_score_formula [exHotspotA] [("L1", exSummaryA)] [] CHICAGO_WEST_lat CHICAGO_WEST_lng
    (buildRecommendation CHICAGO_WEST_lat CHICAGO_WEST_lng [] exHotspotA exSummaryA)
    (by simp [calculateRecommendations, sortDescBy, insertDescBy, exHotspotA, List.lookup])

/-! ### C4: the new-species partition -/

/-- C4: the engine partitions species-frequency entries by life-list
membership, counts only the entries not in the life list, and sums
their occurrence probabilities; on the fixture with
`lifeList = ["norcad"]`, norcad count 5, blujay count 3 and 10
checklists this gives `newSpeciesCount = 1` and
`expectedNewSpecies = 3/10`. -/
theorem claim_new_species_partition :
    (∀ (userLifeList : List String) (hotspotData : HotspotData) (centerLat centerLng : ℝ)
        (hotspot : Hotspot),
        (buildRecommendation centerLat centerLng userLifeList hotspot
              hotspotData).newSpeciesCount =
            (hotspotData.species.filter fun e => !userLifeList.contains e.1).length ∧
          (buildRecommendation centerLat centerLng userLifeList hotspot
                hotspotData).expectedNewSpecies =
            ((hotspotData.species.filter fun e => !userLifeList.contains e.1).map fun e =>
                (e.2.count : ℚ) / (hotspotData.totalChecklists : ℚ)).sum) ∧
      (newSpeciesOf ["norcad"] exPartitionSummary).length = 1 ∧
        expectedNewSpeciesOf ["norcad"] exPartitionSummary = 3 / 10 := by
  have hnew : newSpeciesOf ["norcad"] exPartitionSummary =
      [("blujay", ⟨"Blue Jay", "Cyanocitta cristata", 3, "2024-01-01"⟩)] := by decide
  refine ⟨fun userLifeList hotspotData centerLat centerLng hotspot => ⟨rfl, ?_⟩,
    by rw [hnew]; rfl,
    by unfold expectedNewSpeciesOf; rw [hnew]; norm_num [probabilityOf, exPartitionSummary]⟩
  show expectedNewSpeciesOf userLifeList hotspotData = _
  rw [expectedNewSpeciesOf, foldl_add_eq_sum, zero_add]
  rfl

/-! ### C5: top new species -/

/-- C5: `topNewSpecies` is the stable descending-by-count sort of the
new species, cut to the first 5 and mapped to common name and rounded
percentage: the sort is descending, is a permutation of the new-species
list, and preserves input order within every count class; the 7-species
distinct-count fixture returns exactly 5 entries in descending count
order. -/
theorem claim_top_new_species :
    (∀ (userLifeList : List String) (hotspotData : HotspotData),
        (∀ (centerLat centerLng : ℝ) (hotspot : Hotspot),
            (buildRecommendation centerLat centerLng userLifeList hotspot
                hotspotData).topNewSpecies =
              ((sortDescBy (fun e => e.2.count) (newSpeciesOf userLifeList hotspotData)).take
                    5).map
                fun e =>
                  ⟨e.2.commonName,
                    round ((e.2.count : ℚ) / (hotspotData.totalChecklists : ℚ) * 100)⟩) ∧
          ((sortDescBy (fun e => e.2.count) (newSpeciesOf userLifeList hotspotData)).Pairwise
              fun a b => b.2.count ≤ a.2.count) ∧
            (sortDescBy (fun e => e.2.count) (newSpeciesOf userLifeList hotspotData)).Perm
                (newSpeciesOf userLifeList hotspotData) ∧
              ∀ k : ℕ,
                (sortDescBy (fun e => e.2.count) (newSpeciesOf userLifeList
                      hotspotData)).filter (fun e => decide (e.2.count = k)) =
                  (newSpeciesOf userLifeList hotspotData).filter fun e =>
                    decide (e.2.count = k)) ∧
      topNewSpeciesOf [] exSevenSummary =
        [⟨"S6", 55⟩, ⟨"S3", 45⟩, ⟨"S1", 35⟩, ⟨"S5", 25⟩, ⟨"S2", 15⟩] := by
  refine ⟨fun userLifeList hotspotData =>
    ⟨fun centerLat centerLng hotspot => rfl, sortDescBy_pairwise _ _, sortDescBy_perm _ _,
      fun k => sortDescBy_stable _ k _⟩,
    by norm_num [topNewSpeciesOf, newSpeciesOf, exSevenSummary, sortDescBy, insertDescBy,
      probabilityOf, round_ofNat, round_natCast]⟩

/-! ### C9: the scoring pass leaves its inputs unchanged -/

/-- C9: the state transition of a scoring pass leaves the hotspot list,
the summaries mapping and the life list exactly as they were, and its
only product is the freshly computed ranked sequence stored in
`recommendations`. -/
theorem claim_no_input_mutation (s : ComponentState) :
    (calculateRecommendationsStep s).hotspots = s.hotspots ∧
      (calculateRecommendationsStep s).speciesData = s.speciesData ∧
        (calculateRecommendationsStep s).userLifeList = s.userLifeList ∧
          (calculateRecommendationsStep s).recommendations =
            calculateRecommendations s.hotspots s.speciesData s.userLifeList
              CHICAGO_WEST_lat CHICAGO_WEST_lng :=
  ⟨rfl, rfl, rfl, rfl⟩

/-! ### Aggregation invariants (for C10 and the zero-checklist claims) -/

/-- The count stored in a species-frequency table for a code (0 when the
code is absent). -/
def countIn : SpeciesFrequency → String → ℕ
  | [], _ => 0
  | e :: rest, code => if e.1 = code then e.2.count else countIn rest code

/-- The total of all per-species counts of a table. -/
def sumCounts (freq : SpeciesFrequency) : ℕ := (freq.map fun e => e.2.count).sum

theorem lookup_isSome_iff (code : String) :
    ∀ freq : SpeciesFrequency, (freq.lookup code).isSome = true ↔ code ∈ freq.map Prod.fst
  | [] => by simp [List.lookup]
  | (k, d) :: rest => by
    rw [List.lookup]
    by_cases hc : code = k
    · rw [show (code == k) = true from beq_iff_eq.mpr hc]
      simp [hc]
    · rw [show (code == k) = false from beq_eq_false_iff_ne.mpr hc]
      show (rest.lookup code).isSome = true ↔ _
      simp [lookup_isSome_iff code rest, hc]

theorem countIn_eq_zero_of_not_mem {code : String} :
    ∀ {freq : SpeciesFrequency}, code ∉ freq.map Prod.fst → countIn freq code = 0
  | [], _ => rfl
  | (k, d) :: rest, h => by
    have hk : k ≠ code := fun hkc => h (by simp [hkc])
    have hrest : code ∉ rest.map Prod.fst := fun hm => h (by simp [hm])
    simp [countIn, hk, countIn_eq_zero_of_not_mem hrest]

theorem countIn_incrementCount_self (code : String) :
    ∀ freq : SpeciesFrequency, code ∈ freq.map Prod.fst →
      countIn (incrementCount code freq) code = countIn freq code + 1
  | [], h => absurd h (by simp)
  | (k, d) :: rest, h => by
    by_cases hk : k = code
    · simp [incrementCount, countIn, hk]
    · have hrest : code ∈ rest.map Prod.fst := by
        rcases (by simpa using h : code = k ∨ ∃ x, (code, x) ∈ rest) with hkc | ⟨x, hx⟩
        · exact absurd hkc.symm hk
        · exact List.mem_map_of_mem Prod.fst hx
      simp [incrementCount, countIn, hk, countIn_incrementCount_self code rest hrest]

theorem countIn_incrementCount_other {c code : String} (hne : c ≠ code) :
    ∀ freq : SpeciesFrequency, countIn (incrementCount code freq) c = countIn freq c
  | [] => rfl
  | (k, d) :: rest => by
    by_cases hk : k = code
    · have hkc : ¬ k = c := fun h => hne (h.symm.trans hk)
      simp [incrementCount, countIn, hk, hkc, show ¬ code = c from fun h => hne h.symm]
    · by_cases hkc : k = c
      · simp [incrementCount, countIn, hk, hkc, hne]
      · simp [incrementCount, countIn, hk, hkc, countIn_incrementCount_other hne rest]

theorem sumCounts_incrementCount (code : String) :
    ∀ freq : SpeciesFrequency, code ∈ freq.map Prod.fst →
      sumCounts (incrementCount code freq) = sumCounts freq + 1
  | [], h => absurd h (by simp)
  | (k, d) :: rest, h => by
    by_cases hk : k = code
    · simp [incrementCount, sumCounts, hk]
      omega
    · have hrest : code ∈ rest.map Prod.fst := by
        rcases (by simpa using h : code = k ∨ ∃ x, (code, x) ∈ rest) with hkc | ⟨x, hx⟩
        · exact absurd hkc.symm hk
        · exact List.mem_map_of_mem Prod.fst hx
      have ih := sumCounts_incrementCount code rest hrest
      simp [incrementCount, sumCounts, hk] at ih ⊢
      omega

theorem keys_incrementCount (code : String) :
    ∀ freq : SpeciesFrequency, (incrementCount code freq).map Prod.fst = freq.map Prod.fst
  | [] => rfl
  | (k, d) :: rest => by
    by_cases hk : k = code
    · simp [incrementCount, hk]
    · simp [incrementCount, hk, keys_incrementCount code rest]

theorem countIn_append_self {code : String} (d : SpeciesData) :
    ∀ freq : SpeciesFrequency, code ∉ freq.map Prod.fst →
      countIn (freq ++ [(code, d)]) code = d.count
  | [], _ => by simp [countIn]
  | (k, v) :: rest, h => by
    have hk : k ≠ code := fun hkc => h (by simp [hkc])
    have hrest : code ∉ rest.map Prod.fst := fun hm => h (by simp [hm])
    simp [countIn, hk, countIn_append_self d rest hrest]

theorem countIn_append_other {c code : String} (hne : c ≠ code) (d : SpeciesData) :
    ∀ freq : SpeciesFrequency, countIn (freq ++ [(code, d)]) c = countIn freq c
  | [] => by simp [countIn, Ne.symm hne]
  | (k, v) :: rest => by
    by_cases hk : k = c
    · simp [countIn, hk]
    · simp [countIn, hk, countIn_append_other hne d rest]

theorem sumCounts_append (freq : SpeciesFrequency) (e : String × SpeciesData) :
    sumCounts (freq ++ [e]) = sumCounts freq + e.2.count := by
  simp [sumCounts]

/-- Processing one observation increments the stored count of its
species code by exactly one. -/
theorem countIn_recordObservation_self (freq : SpeciesFrequency) (o : Observation) :
    countIn (recordObservation freq o) o.speciesCode = countIn freq o.speciesCode + 1 := by
  unfold recordObservation
  by_cases hp : (freq.lookup o.speciesCode).isSome = true
  · rw [if_pos hp]
    exact countIn_incrementCount_self _ _ ((lookup_isSome_iff _ _).1 hp)
  · rw [if_neg hp]
    have hnm : o.speciesCode ∉ freq.map Prod.fst := fun hm =>
      hp ((lookup_isSome_iff _ _).2 hm)
    have hm' : o.speciesCode ∈
        (freq ++ [(o.speciesCode, (⟨o.comName, o.sciName, 0, o.obsDt⟩ : SpeciesData))]).map
          Prod.fst := by simp
    rw [countIn_incrementCount_self _ _ hm', countIn_append_self _ _ hnm,
      countIn_eq_zero_of_not_mem hnm]

/-- Processing one observation leaves the counts of all other species
codes unchanged. -/
theorem countIn_recordObservation_other {c : String} (freq : SpeciesFrequency)
    (o : Observation) (hne : c ≠ o.speciesCode) :
    countIn (recordObservation freq o) c = countIn freq c := by
  unfold recordObservation
  by_cases hp : (freq.lookup o.speciesCode).isSome = true
  · rw [if_pos hp, countIn_incrementCount_other hne]
  · rw [if_neg hp, countIn_incrementCount_other hne, countIn_append_other hne]

/-- Processing one observation increments the total of all counts by
exactly one. -/
theorem sumCounts_recordObservation (freq : SpeciesFrequency) (o : Observation) :
    sumCounts (recordObservation freq o) = sumCounts freq + 1 := by
  unfold recordObservation
  by_cases hp : (freq.lookup o.speciesCode).isSome = true
  · rw [if_pos hp]
    exact sumCounts_incrementCount _ _ ((lookup_isSome_iff _ _).1 hp)
  · rw [if_neg hp]
    have hm' : o.speciesCode ∈
        (freq ++ [(o.speciesCode, (⟨o.comName, o.sciName, 0, o.obsDt⟩ : SpeciesData))]).map
          Prod.fst := by simp
    rw [sumCounts_incrementCount _ _ hm', sumCounts_append]
    simp

/-- Processing one observation keeps the table's keys duplicate-free. -/
theorem keys_nodup_recordObservation {freq : SpeciesFrequency} (o : Observation)
    (h : (freq.map Prod.fst).Nodup) :
    ((recordObservation freq o).map Prod.fst).Nodup := by
  unfold recordObservation
  by_cases hp : (freq.lookup o.speciesCode).isSome = true
  · rw [if_pos hp, keys_incrementCount]
    exact h
  · rw [if_neg hp, keys_incrementCount]
    have hnm : o.speciesCode ∉ freq.map Prod.fst := fun hm =>
      hp ((lookup_isSome_iff _ _).2 hm)
    simp [List.nodup_append, h, hnm]

theorem countIn_foldl (c : String) :
    ∀ (observations : List Observation) (freq : SpeciesFrequency),
      countIn (observations.foldl recordObservation freq) c =
        countIn freq c + observations.countP fun o => decide (o.speciesCode = c)
  | [], freq => by simp
  | o :: obs, freq => by
    rw [List.foldl_cons, countIn_foldl c obs, List.countP_cons]
    by_cases hc : o.speciesCode = c
    · subst hc
      rw [countIn_recordObservation_self, if_pos (by simp)]
      omega
    · rw [countIn_recordObservation_other freq o (Ne.symm hc)]
      simp [hc]

theorem sumCounts_foldl :
    ∀ (observations : List Observation) (freq : SpeciesFrequency),
      sumCounts (observations.foldl recordObservation freq) =
        sumCounts freq + observations.length
  | [], freq => by simp
  | o :: obs, freq => by
    rw [List.foldl_cons, sumCounts_foldl obs, sumCounts_recordObservation]
    simp
    omega

theorem keys_nodup_foldl :
    ∀ (observations : List Observation) (freq : SpeciesFrequency),
      (freq.map Prod.fst).Nodup →
        ((observations.foldl recordObservation freq).map Prod.fst).Nodup
  | [], freq, h => h
  | o :: obs, freq, h =>
    keys_nodup_foldl obs (recordObservation freq o) (keys_nodup_recordObservation o h)

/-- In a table with duplicate-free keys, the stored count of a member
entry is recovered by `countIn` at its key. -/
theorem countIn_eq_of_mem :
    ∀ {freq : SpeciesFrequency}, (freq.map Prod.fst).Nodup →
      ∀ {e : String × SpeciesData}, e ∈ freq → countIn freq e.1 = e.2.count
  | [], _, _, he => absurd he (List.not_mem_nil _)
  | (k, d) :: rest, hnd, e, he => by
    rcases List.mem_cons.1 he with rfl | he'
    · simp [countIn]
    · have hk : k ≠ e.1 := by
        intro hkk
        have hm : e.1 ∈ rest.map Prod.fst := List.mem_map_of_mem Prod.fst he'
        rw [← hkk] at hm
        exact (List.nodup_cons.1 hnd).1 hm
      simp [countIn, hk]
      exact countIn_eq_of_mem (List.nodup_cons.1 hnd).2 he'

theorem speciesFrequencyOf_countIn (observations : List Observation) (c : String) :
    countIn (speciesFrequencyOf observations) c =
      observations.countP fun o => decide (o.speciesCode = c) := by
  unfold speciesFrequencyOf
  rw [countIn_foldl]
  simp [countIn]

theorem speciesFrequencyOf_sumCounts (observations : List Observation) :
    sumCounts (speciesFrequencyOf observations) = observations.length := by
  unfold speciesFrequencyOf
  rw [sumCounts_foldl]
  simp [sumCounts]

theorem speciesFrequencyOf_keys_nodup (observations : List Observation) :
    ((speciesFrequencyOf observations).map Prod.fst).Nodup :=
  keys_nodup_foldl observations [] List.nodup_nil

/-- Each entry of the aggregated table counts exactly the observation
records bearing its species code. -/
theorem speciesFrequencyOf_count_eq (observations : List Observation)
    {e : String × SpeciesData} (he : e ∈ speciesFrequencyOf observations) :
    e.2.count = observations.countP fun o => decide (o.speciesCode = e.1) := by
  rw [← speciesFrequencyOf_countIn,
    countIn_eq_of_mem (speciesFrequencyOf_keys_nodup observations) he]

/-- Sum of a map over a filtered list is at most the sum over the whole
list when the mapped values are nonnegative. -/
theorem sum_map_filter_le {α : Type} (p : α → Bool) (f : α → ℚ) :
    ∀ l : List α, (∀ a ∈ l, 0 ≤ f a) →
      ((l.filter p).map f).sum ≤ (l.map f).sum
  | [], _ => le_refl 0
  | a :: l, h => by
    have hl : ∀ b ∈ l, 0 ≤ f b := fun b hb => h b (List.mem_cons_of_mem a hb)
    by_cases hp : p a
    · simp only [List.filter_cons, hp, if_pos, List.map_cons, List.sum_cons]
      exact add_le_add_left (sum_map_filter_le p f l hl) _
    · simp only [List.filter_cons, hp, Bool.false_eq_true, if_neg, not_false_iff,
        List.map_cons, List.sum_cons]
      exact le_add_of_nonneg_of_le (h a (List.mem_cons_self a l))
        (sum_map_filter_le p f l hl)

theorem sum_map_div {α : Type} (f : α → ℚ) (t : ℚ) :
    ∀ l : List α, (l.map fun a => f a / t).sum = (l.map f).sum / t
  | [] => by simp
  | a :: l => by simp [sum_map_div f t l, add_div]

/-! ### C10: aggregation makes probabilities well-behaved -/

/-- C10: for a summary produced by the species-aggregation step,
`totalChecklists` is the number of observation records, each species'
count is the number of records bearing its code, the counts sum to
`totalChecklists`, every per-species probability computed by the engine
lies in the interval from 0 to 1, and `expectedNewSpecies` never
exceeds 1. -/
theorem claim_aggregated_probabilities (hotspotId : String)
    (observations : List Observation) (userLifeList : List String) :
    (fetchHotspotSpecies hotspotId observations).totalChecklists = observations.length ∧
      (∀ e ∈ (fetchHotspotSpecies hotspotId observations).species,
          e.2.count = observations.countP fun o => decide (o.speciesCode = e.1)) ∧
        sumCounts (fetchHotspotSpecies hotspotId observations).species =
            observations.length ∧
          (∀ e ∈ newSpeciesOf userLifeList (fetchHotspotSpecies hotspotId observations),
              0 ≤ probabilityOf (fetchHotspotSpecies hotspotId observations) e ∧
                probabilityOf (fetchHotspotSpecies hotspotId observations) e ≤ 1) ∧
            expectedNewSpeciesOf userLifeList (fetchHotspotSpecies hotspotId observations) ≤
              1 := by
  refine ⟨rfl, fun e he => speciesFrequencyOf_count_eq observations he,
    speciesFrequencyOf_sumCounts observations, ?_, ?_⟩
  · intro e he
    have he' : e ∈ speciesFrequencyOf observations := (List.mem_filter.1 he).1
    have hcount : e.2.count ≤ observations.length :=
      (speciesFrequencyOf_count_eq observations he').le.trans (List.countP_le_length _)
    constructor
    · exact div_nonneg (Nat.cast_nonneg _) (Nat.cast_nonneg _)
    · show (e.2.count : ℚ) / ((observations.length : ℕ) : ℚ) ≤ 1
      rcases Nat.eq_zero_or_pos observations.length with h0 | hpos
      · have : e.2.count = 0 := by omega
        simp [this]
      · rw [div_le_one (by exact_mod_cast hpos)]
        exact_mod_cast hcount
  · show expectedNewSpeciesOf userLifeList (fetchHotspotSpecies hotspotId observations) ≤ 1
    rw [expectedNewSpeciesOf, foldl_add_eq_sum, zero_add]
    have hstep : ((newSpeciesOf userLifeList (fetchHotspotSpecies hotspotId
          observations)).map fun e => probabilityOf (fetchHotspotSpecies hotspotId
            observations) e).sum ≤
        (((fetchHotspotSpecies hotspotId observations).species).map fun e =>
          probabilityOf (fetchHotspotSpecies hotspotId observations) e).sum :=
      sum_map_filter_le _ _ _ fun a _ => div_nonneg (Nat.cast_nonneg _) (Nat.cast_nonneg _)
    refine hstep.trans ?_
    show ((speciesFrequencyOf observations).map fun e =>
        (e.2.count : ℚ) / ((observations.length : ℕ) : ℚ)).sum ≤ 1
    rw [sum_map_div]
    have hsum : ((speciesFrequencyOf observations).map fun e => (e.2.count : ℚ)).sum =
        ((observations.length : ℕ) : ℚ) := by
      have := speciesFrequencyOf_sumCounts observations
      rw [sumCounts] at this
      calc ((speciesFrequencyOf observations).map fun e => (e.2.count : ℚ)).sum
          = (((speciesFrequencyOf observations).map fun e => e.2.count).map
              (Nat.cast : ℕ → ℚ)).sum := by rw [List.map_map]; rfl
        _ = ((((speciesFrequencyOf observations).map fun e => e.2.count).sum : ℕ) : ℚ) :=
            (Nat.cast_list_sum _).symm
        _ = ((observations.length : ℕ) : ℚ) := by rw [this]
    rw [hsum]
    rcases Nat.eq_zero_or_pos observations.length with h0 | hpos
    · simp [h0]
    · rw [div_self (by exact_mod_cast hpos.ne')]

/-- A concrete observation list: one norcad record and two blujay
records. -/
def exObservations : List Observation :=
  [⟨"norcad", "Northern Cardinal", "Cardinalis cardinalis", "2024-01-01"⟩,
    ⟨"blujay", "Blue Jay", "Cyanocitta cristata", "2024-01-02"⟩,
    ⟨"blujay", "Blue Jay", "Cyanocitta cristata", "2024-01-03"⟩]

/-- Witness for C10 at a concrete input: three observation records give
`totalChecklists = 3`, counts summing to 3, and a bounded expected
value. -/
theorem claim_aggregated_probabilities_witness :
    (fetchHotspotSpecies "L1" exObservations).totalChecklists = 3 ∧
      sumCounts (fetchHotspotSpecies "L1" exObservations).species = 3 ∧
        expectedNewSpeciesOf ["norcad"] (fetchHotspotSpecies "L1" exObservations) ≤ 1 :=
  ⟨((claim_aggregated_probabilities "L1" exObservations ["norcad"]).1).trans rfl,
    ((claim_aggregated_probabilities "L1" exObservations ["norcad"]).2.2.1).trans rfl,
    (claim_aggregated_probabilities "L1" exObservations ["norcad"]).2.2.2.2⟩

/-! ### C1: the zero-checklist case

The source has no guard on the division
`data.count / hotspotData.totalChecklists` (line 142).  Under IEEE
semantics a summary with `totalChecklists = 0` and a non-empty species
frequency therefore yields `Infinity` (or `NaN`), not 0 — this refutes
the claim as stated.  The aggregation step, however, can only produce
`totalChecklists = 0` together with an empty species frequency, and for
that shape the expected value and the score are indeed 0. -/

/-- C1 counterexample: for a summary with a non-empty species frequency
(one species with count 3) and `totalChecklists = 0`, the source's
reduce — modelled exactly, with IEEE special values — produces
`Infinity` for the expected number of new species, not 0, so the
computation is an unguarded division by zero. -/
theorem claim_zero_checklist_guard_counterexample :
    jsExpectedNewSpecies
        (newSpeciesOf []
          { hotspotId := "LX"
            species := [("blujay", ⟨"Blue Jay", "Cyanocitta cristata", 3, "d"⟩)]
            totalChecklists := 0 })
        0 = JsVal.posInf ∧
      JsVal.posInf ≠ JsVal.finite 0 := by
  constructor
  · show jsAdd (JsVal.finite 0)
        (jsDiv (.finite ((3 : ℕ) : ℚ)) (.finite ((0 : ℕ) : ℚ))) = JsVal.posInf
    norm_num [jsDiv, jsAdd]
  · intro h
    exact JsVal.noConfusion h

/-- C1 (amended): a summary produced by the aggregation step with
`totalChecklists = 0` necessarily has an empty species frequency, and
for it the engine yields `expectedNewSpecies = 0` and `score = 0`; in
particular the IEEE-exact model of the reduce also returns the finite
value 0, so no division by zero is performed on such summaries.  (For a
hand-crafted summary with `totalChecklists = 0` and a non-empty species
frequency the unguarded division yields Infinity or NaN instead — see
the counterexample.) -/
theorem claim_zero_checklist_guard_amended (hotspotId : String)
    (observations : List Observation) (userLifeList : List String)
    (centerLat centerLng : ℝ) (hotspot : Hotspot)
    (h0 : (fetchHotspotSpecies hotspotId observations).totalChecklists = 0) :
    (fetchHotspotSpecies hotspotId observations).species = [] ∧
      (buildRecommendation centerLat centerLng userLifeList hotspot
          (fetchHotspotSpecies hotspotId observations)).expectedNewSpecies = 0 ∧
        (buildRecommendation centerLat centerLng userLifeList hotspot
            (fetchHotspotSpecies hotspotId observations)).score = 0 ∧
          jsExpectedNewSpecies
              (newSpeciesOf userLifeList (fetchHotspotSpecies hotspotId observations))
              (fetchHotspotSpecies hotspotId observations).totalChecklists =
            JsVal.finite 0 := by
  have hobs : observations = [] := List.length_eq_zero.1 h0
  subst hobs
  refine ⟨rfl, rfl, ?_, rfl⟩
  show (if 0 < calculateDistance centerLat centerLng hotspot.lat hotspot.lng then
      ((0 : ℚ) : ℝ) / Real.sqrt (calculateDistance centerLat centerLng hotspot.lat hotspot.lng)
    else ((0 : ℚ) : ℝ)) = 0
  split_ifs <;> simp

/-- Witness for the amended C1 at a concrete input: the empty
observation list. -/
theorem claim_zero_checklist_guard_amended_witness :
    (fetchHotspotSpecies "L0" []).species = [] ∧
      (buildRecommendation CHICAGO_WEST_lat CHICAGO_WEST_lng [] exHotspotA
          (fetchHotspotSpecies "L0" [])).expectedNewSpecies = 0 ∧
        (buildRecommendation CHICAGO_WEST_lat CHICAGO_WEST_lng [] exHotspotA
            (fetchHotspotSpecies "L0" [])).score = 0 ∧
          jsExpectedNewSpecies (newSpeciesOf [] (fetchHotspotSpecies "L0" []))
              (fetchHotspotSpecies "L0" []).totalChecklists = JsVal.finite 0 :=
  claim_zero_checklist_guard_amended "L0" [] [] CHICAGO_WEST_lat CHICAGO_WEST_lng
    exHotspotA rfl

/-! ### C8: exclusion of unsummarized locations -/

/-- Counting recommendations with a given location id in the engine's
pre-sort list equals counting input hotspots with that id that have a
summary. -/
theorem countP_filterMap_build (speciesData : List (String × HotspotData))
    (userLifeList : List String) (centerLat centerLng : ℝ) (locId : String) :
    ∀ hotspots : List Hotspot,
      ((hotspots.filterMap fun hotspot =>
          (speciesData.lookup hotspot.locId).map
            (buildRecommendation centerLat centerLng userLifeList hotspot)).countP
          fun r => decide (r.hotspot.locId = locId)) =
        hotspots.countP fun h =>
          decide (h.locId = locId) && (speciesData.lookup h.locId).isSome
  | [] => rfl
  | h :: hs => by
    have ih := countP_filterMap_build speciesData userLifeList centerLat centerLng locId hs
    rcases hlook : speciesData.lookup h.locId with _ | hd
    · simp [List.filterMap_cons, hlook, List.countP_cons, ih]
    · simp [List.filterMap_cons, hlook, List.countP_cons, ih, buildRecommendation]

/-- C8: a location without a summary contributes nothing to the output
(no output recommendation carries its id), and a location with a
summary appears in the output exactly once — assuming the data-model
invariant that location ids in the input list are unique. -/
theorem claim_unsummarized_excluded (hotspots : List Hotspot)
    (speciesData : List (String × HotspotData)) (userLifeList : List String)
    (centerLat centerLng : ℝ) (hotspot : Hotspot) (hmem : hotspot ∈ hotspots)
    (hnodup : (hotspots.map Hotspot.locId).Nodup) :
    (speciesData.lookup hotspot.locId = none →
        ∀ r ∈ calculateRecommendations hotspots speciesData userLifeList centerLat centerLng,
          r.hotspot.locId ≠ hotspot.locId) ∧
      ((speciesData.lookup hotspot.locId).isSome = true →
        ((calculateRecommendations hotspots speciesData userLifeList centerLat
              centerLng).countP fun r => decide (r.hotspot.locId = hotspot.locId)) = 1) := by
  constructor
  · intro hnone r hr heq
    obtain ⟨h, hh, hd, hlook, rfl⟩ := mem_calculateRecommendations.1 hr
    have : h.locId = hotspot.locId := heq
    rw [this] at hlook
    rw [hnone] at hlook
    exact Option.noConfusion hlook
  · intro hsome
    unfold calculateRecommendations
    rw [(sortDescBy_perm scoreKey _).countP_eq,
      countP_filterMap_build speciesData userLifeList centerLat centerLng hotspot.locId]
    induction hotspots with
    | nil => exact absurd hmem (List.not_mem_nil hotspot)
    | cons h hs ih =>
      rcases List.mem_cons.1 hmem with rfl | hmem'
      · rw [List.countP_cons]
        have hrest : (hs.countP fun h' =>
            decide (h'.locId = hotspot.locId) && (speciesData.lookup h'.locId).isSome) = 0 := by
          rw [List.countP_eq_zero]
          intro h' hh' hpred
          have heq : h'.locId = hotspot.locId := by
            simp only [Bool.and_eq_true, decide_eq_true_eq] at hpred
            exact hpred.1
          have hmemmap : hotspot.locId ∈ hs.map Hotspot.locId := heq ▸
            List.mem_map_of_mem Hotspot.locId hh'
          exact (List.nodup_cons.1 hnodup).1 hmemmap
        rw [hrest, hsome]
        simp
      · have hne : ¬ h.locId = hotspot.locId := by
          intro heq
          have hmemmap : hotspot.locId ∈ hs.map Hotspot.locId :=
            List.mem_map_of_mem Hotspot.locId hmem'
          rw [← heq] at hmemmap
          exact (List.nodup_cons.1 hnodup).1 hmemmap
        rw [List.countP_cons]
        have hcond : (decide (h.locId = hotspot.locId) &&
            (speciesData.lookup h.locId).isSome) = false := by simp [hne]
        rw [hcond]
        simp only [Bool.false_eq_true, if_neg, not_false_iff, Nat.add_zero]
        exact ih hmem' (List.nodup_cons.1 hnodup).2

/-- Example hotspot whose id has no entry in the example summaries. -/
noncomputable def exHotspotB : Hotspot :=
  { locId := "L2", locName := "Loc Two", lat := 41.90, lng := -87.70 }

/-- Witness for C8 at a concrete input: two hotspots, one summarized;
the summarized one appears exactly once in the output. -/
theorem claim_unsummarized_excluded_witness :
    ((calculateRecommendations [exHotspotA, exHotspotB] [("L1", exSummaryA)] []
        CHICAGO_WEST_lat CHICAGO_WEST_lng).countP fun r =>
          decide (r.hotspot.locId = exHotspotA.locId)) = 1 :=
  (claim_unsummarized_excluded [exHotspotA, exHotspotB] [("L1", exSummaryA)] []
      CHICAGO_WEST_lat CHICAGO_WEST_lng exHotspotA (List.mem_cons_self _ _)
      (by simp [exHotspotA, exHotspotB])).2
    (by simp [exHotspotA, List.lookup])

/-! ### C2: the ranking order -/

theorem sortDescBy_pair {α β : Type} [LinearOrder β] (key : α → β) (a b : α) :
    sortDescBy key [a, b] = if key b ≤ key a then [a, b] else [b, a] := by
  simp [sortDescBy, insertDescBy]

theorem round_real_eq (q : ℝ) (z : ℤ) (h1 : (z : ℝ) ≤ q + 1 / 2) (h2 : q + 1 / 2 < z + 1) :
    round q = z := by
  rw [round_eq]
  exact Int.floor_eq_iff.mpr ⟨h1, h2⟩

/-- The score of a recommendation built for a hotspot located exactly at
the reference center: the distance is 0 and the score is the expected
value itself. -/
theorem buildRecommendation_center_score (userLifeList : List String) (hd : HotspotData)
    (h : Hotspot) (hlat : h.lat = CHICAGO_WEST_lat) (hlng : h.lng = CHICAGO_WEST_lng) :
    (buildRecommendation CHICAGO_WEST_lat CHICAGO_WEST_lng userLifeList h hd).score =
      ((expectedNewSpeciesOf userLifeList hd : ℚ) : ℝ) := by
  show (if 0 < calculateDistance CHICAGO_WEST_lat CHICAGO_WEST_lng h.lat h.lng then
      ((expectedNewSpeciesOf userLifeList hd : ℚ) : ℝ) /
        Real.sqrt (calculateDistance CHICAGO_WEST_lat CHICAGO_WEST_lng h.lat h.lng)
    else ((expectedNewSpeciesOf userLifeList hd : ℚ) : ℝ)) = _
  rw [hlat, hlng, calculateDistance_self]
  simp

/-- Center-located hotspot expected to score 2.5. -/
noncomputable def exHot25 : Hotspot :=
  { locId := "S25", locName := "High", lat := 41.94, lng := -87.67 }

/-- Center-located hotspot expected to score 1.0. -/
noncomputable def exHot10 : Hotspot :=
  { locId := "S10", locName := "Low", lat := 41.94, lng := -87.67 }

/-- Summary giving expected value 25/10 = 2.5. -/
def exSummary25 : HotspotData :=
  { hotspotId := "S25", species := [("spa", ⟨"Sp A", "a", 25, "d"⟩)], totalChecklists := 10 }

/-- Summary giving expected value 10/10 = 1.0. -/
def exSummary10 : HotspotData :=
  { hotspotId := "S10", species := [("spb", ⟨"Sp B", "b", 10, "d"⟩)], totalChecklists := 10 }

/-- C2 (amended): the engine output is sorted descending by the ranking
key actually used by the source — the score rounded to two decimal
places (`parseFloat` of `score.toFixed(2)`); in particular, of two
center-located hotspots with scores 2.5 and 1.0 the 2.5-scoring one
ranks first.  (Exact scores whose two-decimal roundings coincide may
appear in insertion order, so the output need not be sorted by the
exact score — see the counterexample.) -/
theorem claim_ranking_sorted_amended :
    (∀ (hotspots : List Hotspot) (speciesData : List (String × HotspotData))
        (userLifeList : List String) (centerLat centerLng : ℝ),
        (calculateRecommendations hotspots speciesData userLifeList centerLat
            centerLng).Pairwise fun a b => scoreKey b ≤ scoreKey a) ∧
      ((calculateRecommendations [exHot10, exHot25]
            [("S10", exSummary10), ("S25", exSummary25)] [] CHICAGO_WEST_lat
            CHICAGO_WEST_lng).map fun r => r.expectedNewSpecies) = [5 / 2, 1] := by
  constructor
  · intro hotspots speciesData userLifeList centerLat centerLng
    exact sortDescBy_pairwise scoreKey _
  · have e10 : expectedNewSpeciesOf [] exSummary10 = 1 := by
      norm_num [expectedNewSpeciesOf, newSpeciesOf, exSummary10, probabilityOf]
    have e25 : expectedNewSpeciesOf [] exSummary25 = 5 / 2 := by
      norm_num [expectedNewSpeciesOf, newSpeciesOf, exSummary25, probabilityOf]
    have s10 : (buildRecommendation CHICAGO_WEST_lat CHICAGO_WEST_lng [] exHot10
        exSummary10).score = 1 := by
      rw [buildRecommendation_center_score [] exSummary10 exHot10 rfl rfl, e10]
      norm_num
    have s25 : (buildRecommendation CHICAGO_WEST_lat CHICAGO_WEST_lng [] exHot25
        exSummary25).score = 5 / 2 := by
      rw [buildRecommendation_center_score [] exSummary25 exHot25 rfl rfl, e25]
      norm_num
    have k10 : scoreKey (buildRecommendation CHICAGO_WEST_lat CHICAGO_WEST_lng [] exHot10
        exSummary10) = 1 := by
      rw [scoreKey, s10]
      norm_num [round_ofNat]
    have k25 : scoreKey (buildRecommendation CHICAGO_WEST_lat CHICAGO_WEST_lng [] exHot25
        exSummary25) = 5 / 2 := by
      rw [scoreKey, s25]
      norm_num [round_ofNat]
    have hfm : (([exHot10, exHot25] : List Hotspot).filterMap fun hotspot =>
        (([("S10", exSummary10), ("S25", exSummary25)] :
            List (String × HotspotData)).lookup hotspot.locId).map
          (buildRecommendation CHICAGO_WEST_lat CHICAGO_WEST_lng [] hotspot)) =
        [buildRecommendation CHICAGO_WEST_lat CHICAGO_WEST_lng [] exHot10 exSummary10,
          buildRecommendation CHICAGO_WEST_lat CHICAGO_WEST_lng [] exHot25 exSummary25] := by
      simp [exHot10, exHot25, List.lookup]
    show ((sortDescBy scoreKey _).map fun r => r.expectedNewSpecies) = _
    rw [hfm, sortDescBy_pair, k10, k25, if_neg (by norm_num)]
    show [expectedNewSpeciesOf [] exSummary25, expectedNewSpeciesOf [] exSummary10] = _
    rw [e10, e25]

/-- Center-located hotspot with exact score 2.496. -/
noncomputable def exHotLow : Hotspot :=
  { locId := "R1", locName := "Low Raw", lat := 41.94, lng := -87.67 }

/-- Center-located hotspot with exact score 2.504. -/
noncomputable def exHotHigh : Hotspot :=
  { locId := "R2", locName := "High Raw", lat := 41.94, lng := -87.67 }

/-- Summary giving expected value 2496/1000 = 2.496. -/
def exSummaryLow : HotspotData :=
  { hotspotId := "R1", species := [("spl", ⟨"Sp L", "l", 2496, "d"⟩)], totalChecklists := 1000 }

/-- Summary giving expected value 2504/1000 = 2.504. -/
def exSummaryHigh : HotspotData :=
  { hotspotId := "R2", species := [("sph", ⟨"Sp H", "h", 2504, "d"⟩)], totalChecklists := 1000 }

/-- C2 counterexample: with exact scores 2.496 and 2.504 (both rounding
to the ranking key 2.50), the stable sort keeps insertion order, so the
output's first recommendation has a strictly smaller exact score than
its second — the output is not sorted descending by the exact score
`expectedNewSpecies / sqrt(distance)`. -/
theorem claim_ranking_sorted_counterexample :
    ((calculateRecommendations [exHotLow, exHotHigh]
          [("R1", exSummaryLow), ("R2", exSummaryHigh)] [] CHICAGO_WEST_lat
          CHICAGO_WEST_lng).map fun r => r.score) =
        [((2496 / 1000 : ℚ) : ℝ), ((2504 / 1000 : ℚ) : ℝ)] ∧
      ((2496 / 1000 : ℚ) : ℝ) < ((2504 / 1000 : ℚ) : ℝ) := by
  constructor
  · have elow : expectedNewSpeciesOf [] exSummaryLow = 2496 / 1000 := by
      norm_num [expectedNewSpeciesOf, newSpeciesOf, exSummaryLow, probabilityOf]
    have ehigh : expectedNewSpeciesOf [] exSummaryHigh = 2504 / 1000 := by
      norm_num [expectedNewSpeciesOf, newSpeciesOf, exSummaryHigh, probabilityOf]
    have slow : (buildRecommendation CHICAGO_WEST_lat CHICAGO_WEST_lng [] exHotLow
        exSummaryLow).score = ((2496 / 1000 : ℚ) : ℝ) := by
      rw [buildRecommendation_center_score [] exSummaryLow exHotLow rfl rfl, elow]
    have shigh : (buildRecommendation CHICAGO_WEST_lat CHICAGO_WEST_lng [] exHotHigh
        exSummaryHigh).score = ((2504 / 1000 : ℚ) : ℝ) := by
      rw [buildRecommendation_center_score [] exSummaryHigh exHotHigh rfl rfl, ehigh]
    have klow : scoreKey (buildRecommendation CHICAGO_WEST_lat CHICAGO_WEST_lng [] exHotLow
        exSummaryLow) = ((250 : ℤ) : ℝ) / 100 := by
      rw [scoreKey, slow]
      rw [show (((2496 / 1000 : ℚ) : ℝ) * 100) = ((2496 / 10 : ℚ) : ℝ) by push_cast; ring]
      rw [round_real_eq _ 250 (by push_cast; norm_num) (by push_cast; norm_num)]
    have khigh : scoreKey (buildRecommendation CHICAGO_WEST_lat CHICAGO_WEST_lng [] exHotHigh
        exSummaryHigh) = ((250 : ℤ) : ℝ) / 100 := by
      rw [scoreKey, shigh]
      rw [show (((2504 / 1000 : ℚ) : ℝ) * 100) = ((2504 / 10 : ℚ) : ℝ) by push_cast; ring]
      rw [round_real_eq _ 250 (by push_cast; norm_num) (by push_cast; norm_num)]
    have hfm : (([exHotLow, exHotHigh] : List Hotspot).filterMap fun hotspot =>
        (([("R1", exSummaryLow), ("R2", exSummaryHigh)] :
            List (String × HotspotData)).lookup hotspot.locId).map
          (buildRecommendation CHICAGO_WEST_lat CHICAGO_WEST_lng [] hotspot)) =
        [buildRecommendation CHICAGO_WEST_lat CHICAGO_WEST_lng [] exHotLow exSummaryLow,
          buildRecommendation CHICAGO_WEST_lat CHICAGO_WEST_lng [] exHotHigh
            exSummaryHigh] := by
      simp [exHotLow, exHotHigh, List.lookup]
    show ((sortDescBy scoreKey _).map fun r => r.score) = _
    rw [hfm, sortDescBy_pair, klow, khigh, if_pos (le_refl _)]
    rw [List.map_cons, List.map_cons, List.map_nil, slow, shigh]
  · rw [show ((2496 / 1000 : ℚ) : ℝ) < ((2504 / 1000 : ℚ) : ℝ) ↔
        (2496 / 1000 : ℚ) < (2504 / 1000 : ℚ) from Rat.cast_lt]
    norm_num

/-! ### C7: the known-distance fixture

Rigorous interval bounds show
`calculateDistance 41.94 (-87.67) 41.88 (-87.75)` lies between 9.39 and
9.41 km, so the spec's fixture value of 8.1 km is wrong (the correct
rounded value is 9.4 km). -/

theorem arctan_le_self_of_nonneg {t : ℝ} (h0 : 0 ≤ t) : Real.arctan t ≤ t := by
  have h := Real.le_tan (arctan_nonneg_of_nonneg h0) (Real.arctan_lt_pi_div_two t)
  rwa [Real.tan_arctan] at h

theorem mul_one_sub_sq_le_arctan {t : ℝ} (h0 : 0 ≤ t) (h1 : t ≤ 1 / 2) :
    t * (1 - t ^ 2) ≤ Real.arctan t := by
  have hs : Real.sin (Real.arctan t) ≤ Real.arctan t :=
    Real.sin_le (arctan_nonneg_of_nonneg h0)
  rw [Real.sin_arctan] at hs
  have hpos : (0 : ℝ) < Real.sqrt (1 + t ^ 2) := Real.sqrt_pos.2 (by positivity)
  have hsq : Real.sqrt (1 + t ^ 2) ≤ 1 + t ^ 2 := by
    rw [Real.sqrt_le_iff]
    constructor
    · positivity
    · nlinarith [sq_nonneg t]
  have key : t * (1 - t ^ 2) ≤ t / Real.sqrt (1 + t ^ 2) := by
    rw [le_div_iff hpos]
    calc t * (1 - t ^ 2) * Real.sqrt (1 + t ^ 2)
        ≤ t * (1 - t ^ 2) * (1 + t ^ 2) := by
          apply mul_le_mul_of_nonneg_left hsq
          nlinarith
      _ = t * (1 - t ^ 4) := by ring
      _ ≤ t := by nlinarith [mul_nonneg h0 (pow_nonneg h0 4)]
  exact key.trans hs

/-- Two-sided bound on the sine of a point of a subunit interval, via
the quartic Taylor bound. -/
theorem sin_bounds_of_interval (lo hi ml mu : ℝ) {x : ℝ} (h0 : 0 ≤ lo) (hlo : lo ≤ x)
    (hhi : x ≤ hi) (h1 : hi ≤ 1) (hml : ml ≤ lo - hi ^ 3 / 6 - hi ^ 4 * (5 / 96))
    (hmu : hi - lo ^ 3 / 6 + hi ^ 4 * (5 / 96) ≤ mu) :
    ml ≤ Real.sin x ∧ Real.sin x ≤ mu := by
  have hx0 : 0 ≤ x := h0.trans hlo
  have habs : |x| ≤ 1 := by
    rw [abs_of_nonneg hx0]
    exact hhi.trans h1
  have hb := abs_le.1 (Real.sin_bound habs)
  rw [abs_of_nonneg hx0] at hb
  have h3u : x ^ 3 ≤ hi ^ 3 := pow_le_pow_left₀ hx0 hhi 3
  have h3l : lo ^ 3 ≤ x ^ 3 := pow_le_pow_left₀ h0 hlo 3
  have h4u : x ^ 4 ≤ hi ^ 4 := pow_le_pow_left₀ hx0 hhi 4
  constructor <;> nlinarith [hb.1, hb.2]

/-- Two-sided bound on the squared sine of a small positive point, via
`sin x ≤ x` and the cubic lower bound. -/
theorem sin_sq_bounds_of_small (lo hi ql qu : ℝ) {x : ℝ} (h0 : 0 < lo) (hlo : lo ≤ x)
    (hhi : x ≤ hi) (h1 : hi ≤ 1) (hql : ql ≤ (lo - hi ^ 3 / 4) ^ 2) (hqu : hi ^ 2 ≤ qu)
    (hlc : 0 ≤ lo - hi ^ 3 / 4) :
    ql ≤ Real.sin x ^ 2 ∧ Real.sin x ^ 2 ≤ qu := by
  have hx0 : 0 < x := h0.trans_le hlo
  have hsu : Real.sin x ≤ x := (Real.sin_lt hx0).le
  have hsl := Real.sin_gt_sub_cube hx0 (hhi.trans h1)
  have h3u : x ^ 3 ≤ hi ^ 3 := pow_le_pow_left₀ hx0.le hhi 3
  have hslo : lo - hi ^ 3 / 4 ≤ Real.sin x := by nlinarith
  constructor
  · nlinarith [hslo, hlc]
  · nlinarith [hsu, hslo, hlc, hhi]

/-- Pure interval arithmetic for the haversine quantity of the
fixture. -/
theorem fixture_haversine_interval (s1 s2 su sv : ℝ)
    (hq1l : (0.000000274155 : ℝ) ≤ s1) (hq1u : s1 ≤ 0.0000002741559)
    (hq2l : (0.00000048738744 : ℝ) ≤ s2) (hq2u : s2 ≤ 0.00000048738804)
    (hp1l : (0.1273702 : ℝ) ≤ su) (hp1u : su ≤ 0.1287083)
    (hp2l : (0.1270255 : ℝ) ≤ sv) (hp2u : sv ≤ 0.1283541) :
    (0.00000054317130 : ℝ) ≤ s1 + (1 - 2 * su) * (1 - 2 * sv) * s2 ∧
      s1 + (1 - 2 * su) * (1 - 2 * sv) * s2 ≤ 0.00000054510760 := by
  have hpr : (0.5519560 : ℝ) ≤ (1 - 2 * su) * (1 - 2 * sv) ∧
      (1 - 2 * su) * (1 - 2 * sv) ≤ 0.5559257 := by
    constructor <;> nlinarith
  have hmu : (1 - 2 * su) * (1 - 2 * sv) * s2 ≤ 0.5559257 * 0.00000048738804 :=
    mul_le_mul hpr.2 hq2u (by linarith) (by norm_num)
  have hml : (0.5519560 : ℝ) * 0.00000048738744 ≤ (1 - 2 * su) * (1 - 2 * sv) * s2 :=
    mul_le_mul hpr.1 hq2l (by norm_num) (by linarith)
  constructor <;> nlinarith [hmu, hml]

/-- Closed form of the haversine quantity at the fixture coordinates. -/
theorem fixture_haversine_closed_form :
    haversineA 41.94 (-87.67) 41.88 (-87.75) =
      Real.sin (Real.pi / 6000) ^ 2 +
        (1 - 2 * Real.sin (233 / 2000 * Real.pi) ^ 2) *
          (1 - 2 * Real.sin (349 / 3000 * Real.pi) ^ 2) * Real.sin (Real.pi / 4500) ^ 2 := by
  unfold haversineA
  have e1 : toRad (41.88 - 41.94) / 2 = -(Real.pi / 6000) := by unfold toRad; ring
  have e2 : toRad (-87.75 - -87.67) / 2 = -(Real.pi / 4500) := by unfold toRad; ring
  have e3 : Real.cos (toRad 41.94) = 1 - 2 * Real.sin (233 / 2000 * Real.pi) ^ 2 := by
    have h1 : toRad 41.94 = 2 * (233 / 2000 * Real.pi) := by unfold toRad; ring
    have h2 := Real.sin_sq_eq_half_sub (233 / 2000 * Real.pi)
    rw [h1]
    linarith
  have e4 : Real.cos (toRad 41.88) = 1 - 2 * Real.sin (349 / 3000 * Real.pi) ^ 2 := by
    have h1 : toRad 41.88 = 2 * (349 / 3000 * Real.pi) := by unfold toRad; ring
    have h2 := Real.sin_sq_eq_half_sub (349 / 3000 * Real.pi)
    rw [h1]
    linarith
  rw [e1, e2, e3, e4, Real.sin_neg, Real.sin_neg]
  ring

/-- Interval bounds on the haversine quantity at the fixture
coordinates. -/
theorem fixture_haversineA_bounds :
    (0.00000054317130 : ℝ) ≤ haversineA 41.94 (-87.67) 41.88 (-87.75) ∧
      haversineA 41.94 (-87.67) 41.88 (-87.75) ≤ 0.00000054510760 := by
  have hpl := Real.pi_gt_d6
  have hpu := Real.pi_lt_d6
  have hq1 : (0.000000274155 : ℝ) ≤ Real.sin (Real.pi / 6000) ^ 2 ∧
      Real.sin (Real.pi / 6000) ^ 2 ≤ 0.0000002741559 :=
    sin_sq_bounds_of_small 0.0005235986 0.0005235989 0.000000274155 0.0000002741559
      (by norm_num) (by linarith) (by linarith) (by norm_num) (by norm_num) (by norm_num)
      (by norm_num)
  have hq2 : (0.00000048738744 : ℝ) ≤ Real.sin (Real.pi / 4500) ^ 2 ∧
      Real.sin (Real.pi / 4500) ^ 2 ≤ 0.00000048738804 :=
    sin_sq_bounds_of_small 0.0006981315 0.0006981318 0.00000048738744 0.00000048738804
      (by norm_num) (by linarith) (by linarith) (by norm_num) (by norm_num) (by norm_num)
      (by norm_num)
  have hsu : (0.3568897 : ℝ) ≤ Real.sin (233 / 2000 * Real.pi) ∧
      Real.sin (233 / 2000 * Real.pi) ≤ 0.3587593 :=
    sin_bounds_of_interval 0.3659954 0.3659956 0.3568897 0.3587593
      (by norm_num) (by nlinarith) (by nlinarith) (by norm_num) (by norm_num) (by norm_num)
  have hsv : (0.3564065 : ℝ) ≤ Real.sin (349 / 3000 * Real.pi) ∧
      Real.sin (349 / 3000 * Real.pi) ≤ 0.3582654 :=
    sin_bounds_of_interval 0.3654718 0.3654720 0.3564065 0.3582654
      (by norm_num) (by nlinarith) (by nlinarith) (by norm_num) (by norm_num) (by norm_num)
  have hp1 : (0.1273702 : ℝ) ≤ Real.sin (233 / 2000 * Real.pi) ^ 2 ∧
      Real.sin (233 / 2000 * Real.pi) ^ 2 ≤ 0.1287083 := by
    constructor <;> nlinarith [hsu.1, hsu.2]
  have hp2 : (0.1270255 : ℝ) ≤ Real.sin (349 / 3000 * Real.pi) ^ 2 ∧
      Real.sin (349 / 3000 * Real.pi) ^ 2 ≤ 0.1283541 := by
    constructor <;> nlinarith [hsv.1, hsv.2]
  rw [fixture_haversine_closed_form]
  exact fixture_haversine_interval _ _ _ _ hq1.1 hq1.2 hq2.1 hq2.2 hp1.1 hp1.2 hp2.1 hp2.2

/-- Interval bounds for the fixture distance: it lies between 9.2 and
9.6 km (indeed between 9.39 and 9.41). -/
theorem calculateDistance_fixture_bounds :
    9.2 ≤ calculateDistance 41.94 (-87.67) 41.88 (-87.75) ∧
      calculateDistance 41.94 (-87.67) 41.88 (-87.75) ≤ 9.6 := by
  have hAb := fixture_haversineA_bounds
  have h1mA : (0 : ℝ) < 1 - haversineA 41.94 (-87.67) 41.88 (-87.75) := by
    linarith [hAb.2]
  have hsq1A_pos : (0 : ℝ) <
      Real.sqrt (1 - haversineA 41.94 (-87.67) 41.88 (-87.75)) := Real.sqrt_pos.2 h1mA
  have hcd : calculateDistance 41.94 (-87.67) 41.88 (-87.75) =
      12742 * Real.arctan (Real.sqrt (haversineA 41.94 (-87.67) 41.88 (-87.75)) /
        Real.sqrt (1 - haversineA 41.94 (-87.67) 41.88 (-87.75))) := by
    unfold calculateDistance jsAtan2
    rw [if_pos hsq1A_pos]
    ring
  have hsA : (0.000736998 : ℝ) ≤ Real.sqrt (haversineA 41.94 (-87.67) 41.88 (-87.75)) ∧
      Real.sqrt (haversineA 41.94 (-87.67) 41.88 (-87.75)) ≤ 0.00073832 := by
    constructor
    · exact Real.le_sqrt_of_sq_le (by nlinarith [hAb.1])
    · exact Real.sqrt_le_iff.mpr ⟨by norm_num, by nlinarith [hAb.2]⟩
  have hs1A : (0.9999994 : ℝ) ≤
      Real.sqrt (1 - haversineA 41.94 (-87.67) 41.88 (-87.75)) ∧
      Real.sqrt (1 - haversineA 41.94 (-87.67) 41.88 (-87.75)) ≤ 1 := by
    constructor
    · exact Real.le_sqrt_of_sq_le (by nlinarith [hAb.2])
    · exact Real.sqrt_le_iff.mpr ⟨by norm_num, by nlinarith [hAb.1]⟩
  have ht_0 : (0 : ℝ) ≤ Real.sqrt (haversineA 41.94 (-87.67) 41.88 (-87.75)) /
      Real.sqrt (1 - haversineA 41.94 (-87.67) 41.88 (-87.75)) :=
    div_nonneg (Real.sqrt_nonneg _) (Real.sqrt_nonneg _)
  have ht_l : (0.000736998 : ℝ) ≤
      Real.sqrt (haversineA 41.94 (-87.67) 41.88 (-87.75)) /
        Real.sqrt (1 - haversineA 41.94 (-87.67) 41.88 (-87.75)) := by
    rw [le_div_iff hsq1A_pos]
    nlinarith [hsA.1, hs1A.2, hs1A.1]
  have ht_u : Real.sqrt (haversineA 41.94 (-87.67) 41.88 (-87.75)) /
        Real.sqrt (1 - haversineA 41.94 (-87.67) 41.88 (-87.75)) ≤ 0.00073834 := by
    rw [div_le_iff hsq1A_pos]
    nlinarith [hsA.2, hs1A.1]
  have hat_u : Real.arctan (Real.sqrt (haversineA 41.94 (-87.67) 41.88 (-87.75)) /
        Real.sqrt (1 - haversineA 41.94 (-87.67) 41.88 (-87.75))) ≤ 0.00073834 :=
    (arctan_le_self_of_nonneg ht_0).trans ht_u
  have hat_l : (0.000736997 : ℝ) ≤
      Real.arctan (Real.sqrt (haversineA 41.94 (-87.67) 41.88 (-87.75)) /
        Real.sqrt (1 - haversineA 41.94 (-87.67) 41.88 (-87.75))) := by
    have h := mul_one_sub_sq_le_arctan ht_0 (by linarith [ht_u])
    have ht3 : (Real.sqrt (haversineA 41.94 (-87.67) 41.88 (-87.75)) /
        Real.sqrt (1 - haversineA 41.94 (-87.67) 41.88 (-87.75))) ^ 3 ≤
          (0.00073834 : ℝ) ^ 3 := pow_le_pow_left₀ ht_0 ht_u 3
    nlinarith [ht_l, h, ht3]
  constructor
  · rw [hcd]
    linarith [hat_l]
  · rw [hcd]
    linarith [hat_u]

/-- C7 counterexample: the fixture distance is not within 0.2 km of
8.1 km — it exceeds 9.39 km. -/
theorem claim_distance_fixture_counterexample :
    ¬ |calculateDistance 41.94 (-87.67) 41.88 (-87.75) - 8.1| ≤ 0.2 := by
  intro h
  rw [abs_le] at h
  linarith [calculateDistance_fixture_bounds.1]

/-- C7 (amended): the distance function is the haversine formula with
Earth radius 6371 km in the `atan2` form, and the fixture
`distanceKm(41.94, -87.67, 41.88, -87.75)` is within 0.2 km of 9.4 km
(not of 8.1 km as the spec's fixture states). -/
theorem claim_distance_fixture_amended :
    (∀ lat1 lon1 lat2 lon2 : ℝ,
        calculateDistance lat1 lon1 lat2 lon2 =
          6371 * (2 * jsAtan2 (Real.sqrt (haversineA lat1 lon1 lat2 lon2))
            (Real.sqrt (1 - haversineA lat1 lon1 lat2 lon2)))) ∧
      |calculateDistance 41.94 (-87.67) 41.88 (-87.75) - 9.4| ≤ 0.2 := by
  constructor
  · intro lat1 lon1 lat2 lon2
    rfl
  · rw [abs_le]
    constructor
    · linarith [calculateDistance_fixture_bounds.1]
    · linarith [calculateDistance_fixture_bounds.2]


end BirdOptimizer
